import Mathlib

/-!
Verification of the VMSS (scale-set) identity-resolution and backend-pool
membership-reconciliation engine of `cloud-provider-azure` as vendored in this
repository (`pkg/provider/azure_vmss.go`).

Shallow embedding conventions:
* Azure SDK pointer fields (`*string`, `*bool`, ...) become `Option` fields,
  except where the source unconditionally dereferences them (those become the
  plain type, since a `nil` there would panic upstream).
* Backend-pool references (`compute.SubResource`) are represented by their
  `ID` string, the only field the engine reads.
* Go slices aliasing the same backing array is modelled explicitly: the
  reverse-scan deletion loop mutates the array it scans, and the embedding
  reproduces that semantics step by step.
-/

namespace AzureVmss

/-- `strings.EqualFold`, restricted to the ASCII case folding used by the
resource identifiers this engine compares; stated over the character lists so
that it evaluates by kernel reduction. -/
def eqFold (a b : String) : Bool :=
  a.data.map Char.toLower == b.data.map Char.toLower

/-- The error taxonomy used by the engine: `ErrorNotVmssInstance`,
`cloudprovider.InstanceNotFound`, and the `fmt.Errorf`-style failures
(primary-configuration selection and remote failures). -/
inductive ProviderError where
  | errorNotVmssInstance
  | instanceNotFound
  | configError (msg : String)
  deriving DecidableEq, Repr

/-! ## Backend-pool deletion staging

`ensureBackendPoolDeletedFromNode` (azure_vmss.go:1425-1441) and
`EnsureBackendPoolDeletedFromVMSets` (azure_vmss.go:1726-1738) both run

```
for i := len(existingBackendPools) - 1; i >= 0; i-- {
    curPool := existingBackendPools[i]
    if strings.EqualFold(backendPoolID, *curPool.ID) {
        foundPool = true
        newBackendPools = append(existingBackendPools[:i], existingBackendPools[i+1:]...)
    }
}
```

`append(existingBackendPools[:i], existingBackendPools[i+1:]...)` reuses the
backing array of `existingBackendPools` (capacity suffices), so it shifts the
elements `i+1 .. n-1` one slot to the left inside that array, leaves the slot
`n-1` unchanged, and returns a view of the first `n-1` slots; the slice header
`existingBackendPools` keeps length `n` throughout the loop. -/

/-- Effect on the backing array of one matching iteration at index `i`:
positions `0..i-1` keep their values, positions `i..n-2` receive the old
values of `i+1..n-1`, and position `n-1` keeps its old value. -/
def removeStep (arr : List String) (i : Nat) : List String :=
  arr.take i ++ arr.drop (i + 1) ++ arr.drop (arr.length - 1)

/-- The reverse scan of the deletion loop, iterating `i` from `fuel - 1` down
to `0` over the (mutated-in-place) backing array `arr`; returns the final
array together with the `foundPool` flag. -/
def removeLoop (backendPoolID : String) : Nat → List String → Bool → List String × Bool
  | 0, arr, found => (arr, found)
  | i + 1, arr, found =>
    if eqFold backendPoolID (arr.getD i "") then
      removeLoop backendPoolID i (removeStep arr i) true
    else
      removeLoop backendPoolID i arr found

/-- The membership-list computation of `ensureBackendPoolDeletedFromNode`
(azure_vmss.go:1421-1444): `none` models the `nil`-staged-VM no-op returns
(empty or absent pool list, or pool id not found); `some l` models staging a
delta whose new membership list is `l` (the first `n-1` slots of the final
backing array). -/
def ensureBackendPoolDeletedFromNodePools (pools : List String) (backendPoolID : String) :
    Option (List String) :=
  if pools.isEmpty then none
  else
    let r := removeLoop backendPoolID pools.length pools false
    if r.2 then some (r.1.take (pools.length - 1)) else none

/-- The membership-list computation of `EnsureBackendPoolDeletedFromVMSets`
(azure_vmss.go:1721-1738) on one scale set's template: identical loop to the
per-node variant (`newBackendPools` starts as the `nil` slice there, which
only matters if no match is found, in which case the function `continue`s —
modelled as `none`). -/
def ensureBackendPoolDeletedFromVMSetsPools (pools : List String) (backendPoolID : String) :
    Option (List String) :=
  if pools.isEmpty then none
  else
    let r := removeLoop backendPoolID pools.length pools false
    if r.2 then some (r.1.take (pools.length - 1)) else none

/-! ## Ensure staging (`EnsureHostInPool`, azure_vmss.go:1061-1105) -/

/-- Modelled from the spec: the derivation of the owning load-balancer name
from a backend-pool id (`isBackendPoolOnSameLB` lives in a file of this
repository that is not under `src/`; the spec says only "derive the owning
load-balancer name from each existing pool id and from the target pool id; if
any existing membership belongs to a differently-named load balancer, skip").
The derivation itself is abstracted as a parameter `lbNameOf`; the scan
returns `(isSameLB, oldLBName)`. -/
def isBackendPoolOnSameLB (lbNameOf : String → String) (newBackendPoolID : String)
    (existingBackendPools : List String) : Bool × String :=
  match existingBackendPools.find? (fun p => !(eqFold (lbNameOf p) (lbNameOf newBackendPoolID))) with
  | some p => (false, lbNameOf p)
  | none => (true, "")

/-- The membership-update core of `EnsureHostInPool` (azure_vmss.go:1061-1105),
acting on the primary IP configuration's membership list (`nil` pool list is
the empty list): the idempotence check, the standard-load-balancer conflict
check, and the append composing the staged delta. `none` models the no-op
returns (`"", "", "", nil, nil`); `some l` models staging a delta whose new
membership list is `l`. -/
def ensureHostInPoolStage (useStandardLB : Bool) (lbNameOf : String → String)
    (pools : List String) (backendPoolID : String) : Option (List String) :=
  let foundPool := pools.any (fun p => eqFold backendPoolID p)
  if foundPool then none
  else if useStandardLB && decide (0 < pools.length) then
    if (isBackendPoolOnSameLB lbNameOf backendPoolID pools).1 then
      some (pools ++ [backendPoolID])
    else none
  else some (pools ++ [backendPoolID])

/-! ## Identity resolution (`getScaleSetVMInstanceID`, azure_vmss.go:623-635;
`getNodeIdentityByNodeName`, azure_vmss.go:688-747) -/

/-- One base-36 digit as accepted by `strconv.ParseUint(s, 36, 64)`:
`0`-`9`, `a`-`z` and `A`-`Z`. -/
def base36DigitVal (c : Char) : Option Nat :=
  if '0' ≤ c && c ≤ '9' then some (c.toNat - '0'.toNat)
  else if 'a' ≤ c && c ≤ 'z' then some (c.toNat - 'a'.toNat + 10)
  else if 'A' ≤ c && c ≤ 'Z' then some (c.toNat - 'A'.toNat + 10)
  else none

/-- `strconv.ParseUint(s, 36, 64)` on the 6-character suffix: every character
must be a base-36 digit (a 6-character base-36 number cannot overflow 64
bits, so the overflow path of `ParseUint` is unreachable here). -/
def parseUintBase36 (s : List Char) : Option Nat :=
  if s.isEmpty then none
  else s.foldl (fun acc c => acc.bind fun a => (base36DigitVal c).map fun d => a * 36 + d) (some 0)

/-- `getScaleSetVMInstanceID` (azure_vmss.go:623-635): names shorter than 6
characters, or whose trailing 6 characters do not parse as base-36, are
`ErrorNotVmssInstance`; otherwise the instance id is the decimal rendering of
the decoded suffix. -/
def getScaleSetVMInstanceID (machineName : String) : Except ProviderError String :=
  if machineName.length < 6 then .error .errorNotVmssInstance
  else
    match parseUintBase36 (machineName.data.drop (machineName.length - 6)) with
    | none => .error .errorNotVmssInstance
    | some v => .ok (toString v)

/-- The node name with its 6-character instance suffix stripped
(`nodeName[:len(nodeName)-6]`). -/
def stripInstanceSuffix (nodeName : String) : String :=
  String.mk (nodeName.data.take (nodeName.length - 6))

/-- One `vmssEntry` of the VMSS inventory cache, restricted to the fields
`getNodeIdentityByNodeName` reads: `vmss.Name` (a `*string`),
`vmss.VirtualMachineProfile.OsProfile.ComputerNamePrefix` (collapsed to one
`Option`: `none` when any pointer on that chain is `nil`), and the entry's
resource group. -/
structure VMSSEntry where
  name : Option String
  computerNamePrefix : Option String
  resourceGroup : String
  deriving DecidableEq, Repr

/-- `nodeIdentity` (azure_vmss.go:62-66). -/
structure NodeIdentity where
  resourceGroup : String
  vmssName : String
  nodeName : String
  deriving DecidableEq, Repr

/-- The `vmsses.Range` scan of `getNodeIdentityByNodeName`'s getter
(azure_vmss.go:689-722): skip entries with a `nil` name; the prefix compared
is the computer-name prefix when set, else the scale-set name; the first
entry whose prefix case-insensitively equals the stripped node name fills in
the identity (a `sync.Map` iterates in unspecified order — the snapshot is
given as an already-ordered list). -/
def findVMSSForNode (nodeName : String) : List VMSSEntry → NodeIdentity
  | [] => ⟨"", "", nodeName⟩
  | e :: rest =>
    match e.name with
    | none => findVMSSForNode nodeName rest
    | some nm =>
      let vmssPrefix := e.computerNamePrefix.getD nm
      if eqFold vmssPrefix (stripInstanceSuffix nodeName) then ⟨e.resourceGroup, nm, nodeName⟩
      else findVMSSForNode nodeName rest

/-- `getNodeIdentityByNodeName` (azure_vmss.go:688-747). `snap1` is the cache
snapshot the first getter call sees (read mode `crt`), `snap2` the snapshot
the `CacheReadTypeForceRefresh` retry sees. The second component counts cache
reads (getter calls): a failure after the retry has performed exactly 2 reads,
of which exactly one is the forced refresh. -/
def getNodeIdentityByNodeName (nodeName : String) (snap1 snap2 : List VMSSEntry) :
    Except ProviderError NodeIdentity × Nat :=
  match getScaleSetVMInstanceID nodeName with
  | .error e => (.error e, 0)
  | .ok _ =>
    let node := findVMSSForNode nodeName snap1
    if node.vmssName ≠ "" then (.ok node, 1)
    else
      let node2 := findVMSSForNode nodeName snap2
      if node2.vmssName = "" then (.error .instanceNotFound, 2)
      else (.ok node2, 2)

/-! ## Primary configuration selection (azure_vmss.go:919-964) -/

/-- `compute.VirtualMachineScaleSetIPConfiguration`, restricted to the fields
the engine reads. `loadBalancerBackendAddressPools` holds the pool ids of the
`compute.SubResource` entries (`none` models the `nil` slice). -/
structure VMSSIPConfig where
  primary : Option Bool
  loadBalancerBackendAddressPools : Option (List String)
  deriving DecidableEq, Repr

/-- `compute.VirtualMachineScaleSetNetworkConfiguration`, restricted to the
fields the engine reads; `ipConfigurations` is the dereferenced
`*config.IPConfigurations` list. -/
structure VMSSNetworkConfig where
  primary : Option Bool
  ipConfigurations : List VMSSIPConfig
  deriving DecidableEq, Repr

/-- `getPrimaryNetworkInterfaceConfiguration` (azure_vmss.go:919-932): the
sole configuration when exactly one exists, else the first one whose
`Primary` flag is a non-`nil` `true`, else an error. -/
def getPrimaryNetworkInterfaceConfiguration (networkConfigurations : List VMSSNetworkConfig)
    (nodeName : String) : Except ProviderError VMSSNetworkConfig :=
  match networkConfigurations with
  | [c] => .ok c
  | _ =>
    match networkConfigurations.find? (fun c => c.primary == some true) with
    | some c => .ok c
    | none =>
      .error (.configError
        ("failed to find a primary network configuration for the scale set VM " ++ nodeName))

/-- `getPrimaryIPConfigFromVMSSNetworkConfig` (azure_vmss.go:950-964): the
same selection over the configuration's IP-configuration list. -/
def getPrimaryIPConfigFromVMSSNetworkConfig (config : VMSSNetworkConfig) :
    Except ProviderError VMSSIPConfig :=
  match config.ipConfigurations with
  | [c] => .ok c
  | _ =>
    match config.ipConfigurations.find? (fun c => c.primary == some true) with
    | some c => .ok c
    | none => .error (.configError "failed to find a primary IP configuration")

/-! ## Power state (`GetPowerStatusByNodeName`, azure_vmss.go:234-266) -/

/-- One entry of `InstanceView.Statuses` (`status.Code` is a `*string`;
`to.String(nil)` is `""`). -/
structure InstanceViewStatus where
  code : Option String
  deriving DecidableEq, Repr

/-- `VirtualMachineScaleSetVMInstanceView`, restricted to `Statuses`
(a `*[]InstanceViewStatus`). -/
structure VMInstanceView where
  statuses : Option (List InstanceViewStatus)
  deriving DecidableEq, Repr

/-- The resolved scale-set VM record, restricted to `InstanceView`
(a pointer, `nil` while the VM is being deleted). -/
structure VMSSVMRecord where
  instanceView : Option VMInstanceView
  deriving DecidableEq, Repr

/-- Modelled from the spec: the constant `vmPowerStatePrefix` is declared in a
file of this repository that is not under `src/`; the status codes scanned
here are the `"PowerState/..."` codes named by the spec's power-state
operation. -/
def vmPowerStatePrefix : String := "PowerState/"

/-- Modelled from the spec: the constant `vmPowerStateStopped` is declared in
a file of this repository that is not under `src/`; the spec's power-state
operation reports `"stopped"` for a VM with no instance view. -/
def vmPowerStateStopped : String := "stopped"

/-- The state scan of `GetPowerStatusByNodeName` (azure_vmss.go:250-265) on a
resolved scale-set VM record: the first status whose code starts with
`vmPowerStatePrefix` yields that code with the marker trimmed; a `nil`
instance view, a `nil` status list, or no such code yields
`vmPowerStateStopped` — never an error. -/
def getPowerStatusOfVMSSVM (vm : VMSSVMRecord) : Except ProviderError String :=
  let scanned : Option String :=
    match vm.instanceView with
    | none => none
    | some iv =>
      match iv.statuses with
      | none => none
      | some statuses =>
        (statuses.find? (fun st => vmPowerStatePrefix.data.isPrefixOf (st.code.getD "").data)).map
          (fun st => String.mk ((st.code.getD "").data.drop vmPowerStatePrefix.data.length))
  match scanned with
  | some state => .ok state
  | none => .ok vmPowerStateStopped

/-! ## Bulk ensure (`EnsureHostsInPool`, azure_vmss.go:1275-1389)

The per-node staging loop classifies each node and either skips it, records a
failure in the `errors` slice, registers an availability-set delegation task,
or stages a per-instance delta grouped by `(resourceGroup, vmssName)`. The
grouped updates and the delegations then run as `hostUpdates` tasks under
`utilerrors.AggregateGoroutines` (vendored `k8s.io/apimachinery`, not under
`src/`), whose contract is: run every function, wait for all, return the
aggregate of the non-`nil` results, `nil` when there is none. The embedding
takes each node's classification/staging outcome and each group's update
outcome as data, and computes the staged groups, the collected failures and
the returned error. -/

/-- The outcome of the staging loop's body for one node
(azure_vmss.go:1285-1350). -/
inductive NodePlan where
  /-- control-plane node under standard LB, or excluded from load balancing: `continue`. -/
  | excluded
  /-- `ShouldNodeExcludedFromLoadBalancer` failed: `return err` aborts the call. -/
  | exclusionCheckErr (e : String)
  /-- `isNodeManagedByAvailabilitySet` failed: appended to `errors`. -/
  | classifyErr (e : String)
  /-- availability-set node under standard LB: delegation task with this outcome. -/
  | vmasDelegated (res : Option String)
  /-- availability-set node under basic LB: skipped. -/
  | vmasSkipped
  /-- `EnsureHostInPool` failed: appended to `errors`. -/
  | stageErr (e : String)
  /-- `EnsureHostInPool` returned a `nil` staged VM: skipped. -/
  | stageNil
  /-- `EnsureHostInPool` staged a delta for `(resourceGroup, vmssName)`. -/
  | staged (resourceGroup vmssName instanceID : String)
  deriving DecidableEq, Repr

/-- Accumulator of the staging loop: the `errors` slice, the distinct keys of
the `nodeUpdates` map (in first-staging order), and the delegation tasks'
outcomes (in node order). -/
structure HostsInPoolAcc where
  errors : List String
  groups : List (String × String)
  delegations : List (Option String)
  deriving DecidableEq, Repr

/-- The staging loop of `EnsureHostsInPool` (azure_vmss.go:1285-1350);
`.error e` is the early `return err` of a failed exclusion check. -/
def stageLoop : List NodePlan → HostsInPoolAcc → Except String HostsInPoolAcc
  | [], acc => .ok acc
  | n :: rest, acc =>
    match n with
    | .excluded => stageLoop rest acc
    | .exclusionCheckErr e => .error e
    | .classifyErr e => stageLoop rest { acc with errors := acc.errors ++ [e] }
    | .vmasDelegated r => stageLoop rest { acc with delegations := acc.delegations ++ [r] }
    | .vmasSkipped => stageLoop rest acc
    | .stageErr e => stageLoop rest { acc with errors := acc.errors ++ [e] }
    | .stageNil => stageLoop rest acc
    | .staged rg vmss _ =>
      stageLoop rest
        { acc with
          groups := if (rg, vmss) ∈ acc.groups then acc.groups else acc.groups ++ [(rg, vmss)] }

/-- `utilerrors.AggregateGoroutines` (modelled from its contract, the function
is vendored outside `src/`): every task runs; the non-`nil` outcomes are
collected; `nil` when none failed. -/
def aggregateGoroutines (results : List (Option String)) : List String :=
  results.filterMap id

/-- `EnsureHostsInPool` (azure_vmss.go:1275-1389). `groupUpdate g` is the
outcome of the batched `UpdateVMs` call for group `g`; `templatePhase` the
outcome of the trailing `ensureVMSSInPool` template reconciliation. `none`
models a `nil` return; `some l` a non-`nil` error whose flattened members are
`l`. -/
def ensureHostsInPool (nodes : List NodePlan) (groupUpdate : String × String → Option String)
    (templatePhase : Option String) : Option (List String) :=
  match stageLoop nodes ⟨[], [], []⟩ with
  | .error e => some [e]
  | .ok acc =>
    let errs := aggregateGoroutines (acc.delegations ++ acc.groups.map groupUpdate)
    if !errs.isEmpty then some errs
    else if !acc.errors.isEmpty then some acc.errors
    else templatePhase.map (fun e => [e])

/-- The batched `UpdateVMs` calls `EnsureHostsInPool` issues: one per distinct
staged group, all of them (`AggregateGoroutines` runs every task), independent
of any outcome. -/
def ensureHostsInPoolUpdateCalls (nodes : List NodePlan) : List (String × String) :=
  match stageLoop nodes ⟨[], [], []⟩ with
  | .error _ => []
  | .ok acc => acc.groups

/-- Every failure `EnsureHostsInPool` collects: the staging-loop `errors`
slice plus the failures of all delegation and group-update tasks. -/
def ensureHostsInPoolCollectedFailures (nodes : List NodePlan)
    (groupUpdate : String × String → Option String) : List String :=
  match stageLoop nodes ⟨[], [], []⟩ with
  | .error e => [e]
  | .ok acc => acc.errors ++ aggregateGoroutines (acc.delegations ++ acc.groups.map groupUpdate)

/-! ## Bulk delete (`EnsureBackendPoolDeleted`, azure_vmss.go:1530-1654) -/

/-- One entry of `BackendIPConfigurations` (its `ID` is a `*string`). -/
structure BackendIPConfRef where
  id : Option String
  deriving DecidableEq, Repr

/-- One `network.BackendAddressPool`, restricted to the fields the engine
reads (`ID` is unconditionally dereferenced by the comparison). -/
structure BackendAddressPool where
  id : String
  backendIPConfigurations : Option (List BackendIPConfRef)
  deriving DecidableEq, Repr

/-- The IP-configuration-id collection of `EnsureBackendPoolDeleted`
(azure_vmss.go:1542-1553): the non-`nil` backend IP-configuration ids of
every listed pool whose id case-insensitively equals `backendPoolID`. -/
def collectIPConfigurationIDs (pools : List BackendAddressPool) (backendPoolID : String) :
    List String :=
  pools.foldl
    (fun acc bp =>
      if eqFold bp.id backendPoolID then
        match bp.backendIPConfigurations with
        | some confs => acc ++ confs.filterMap (fun c => c.id)
        | none => acc
      else acc)
    []

/-- The outcome of resolving one IP-configuration id to a node
(`GetNodeNameByIPConfigurationID` + `ensureBackendPoolDeletedFromNode`'s VM
resolution, azure_vmss.go:1570-1594), given as data. -/
inductive IPConfigOutcome where
  /-- `ErrorNotVmssInstance`: an availability-set configuration, skipped. -/
  | notVmss
  /-- `cloudprovider.InstanceNotFound`: the VM is gone, skipped. -/
  | notFound
  /-- any other resolution failure: appended to `allErrs`. -/
  | resolveErr (e : String)
  /-- `ensureBackendPoolDeletedFromNode` failed (not `ErrorNotVmssInstance`). -/
  | stageErr (e : String)
  /-- resolved to a node with this membership list on its primary IP
  configuration; deletion is staged from it. -/
  | node (nodeName : String) (group : String × String) (instanceID : String)
      (vmPools : List String)
  deriving Repr

/-- Accumulator of `EnsureBackendPoolDeleted`'s per-configuration loop. -/
structure DeleteAcc where
  allErrs : List String
  groups : List (String × String)
  stagedUpdates : List (String × List String)
  invalidated : List String
  resolvedConfigs : List String
  deriving DecidableEq, Repr

/-- The per-IP-configuration loop of `EnsureBackendPoolDeleted`
(azure_vmss.go:1558-1614). `extractScaleSetName` abstracts the
`extractScaleSetNameByProviderID` regex (azure_vmss.go:48,638-645): under a
basic load balancer a configuration whose extracted scale-set name differs
from `vmSetName` is skipped before resolution. -/
def deleteLoop (useStandardLB : Bool) (vmSetName : String)
    (extractScaleSetName : String → Option String) (resolve : String → IPConfigOutcome)
    (backendPoolID : String) : List String → DeleteAcc → DeleteAcc
  | [], acc => acc
  | cfg :: rest, acc =>
    let skipBasic :=
      match extractScaleSetName cfg with
      | some ssName => !useStandardLB && !(eqFold ssName vmSetName)
      | none => false
    if skipBasic then deleteLoop useStandardLB vmSetName extractScaleSetName resolve backendPoolID rest acc
    else
      let acc := { acc with resolvedConfigs := acc.resolvedConfigs ++ [cfg] }
      match resolve cfg with
      | .notVmss => deleteLoop useStandardLB vmSetName extractScaleSetName resolve backendPoolID rest acc
      | .notFound => deleteLoop useStandardLB vmSetName extractScaleSetName resolve backendPoolID rest acc
      | .resolveErr e =>
        deleteLoop useStandardLB vmSetName extractScaleSetName resolve backendPoolID rest
          { acc with allErrs := acc.allErrs ++ [e] }
      | .stageErr e =>
        deleteLoop useStandardLB vmSetName extractScaleSetName resolve backendPoolID rest
          { acc with allErrs := acc.allErrs ++ [e] }
      | .node nodeName group _ vmPools =>
        match ensureBackendPoolDeletedFromNodePools vmPools backendPoolID with
        | none => deleteLoop useStandardLB vmSetName extractScaleSetName resolve backendPoolID rest acc
        | some newPools =>
          deleteLoop useStandardLB vmSetName extractScaleSetName resolve backendPoolID rest
            { acc with
              groups := if group ∈ acc.groups then acc.groups else acc.groups ++ [group]
              stagedUpdates := acc.stagedUpdates ++ [(nodeName, newPools)]
              invalidated := acc.invalidated ++ [nodeName] }

/-- The observable outcome of one `EnsureBackendPoolDeleted` call: the
returned error (`none` = `nil`), and the effects it performed. -/
structure DeleteRun where
  result : Option (List String)
  resolvedConfigs : List String
  stagedUpdates : List (String × List String)
  invalidated : List String
  deriving DecidableEq, Repr

/-- `EnsureBackendPoolDeleted` (azure_vmss.go:1530-1654): a `nil`
`backendAddressPools` returns `nil` before anything runs; otherwise the
engine collects the matching IP-configuration ids, stages per-node deletions,
issues one batched update per staged group plus the optional scale-set-level
deletion (`vmssPhase`, the `ensureBackendPoolDeletedFromVMSS` outcome when
`deleteFromVMSet`), and aggregates failures as `EnsureHostsInPool` does. -/
def ensureBackendPoolDeleted (useStandardLB deleteFromVMSet : Bool) (vmSetName : String)
    (extractScaleSetName : String → Option String) (resolve : String → IPConfigOutcome)
    (groupUpdate : String × String → Option String) (vmssPhase : Option String)
    (backendAddressPools : Option (List BackendAddressPool)) (backendPoolID : String) :
    DeleteRun :=
  match backendAddressPools with
  | none => ⟨none, [], [], []⟩
  | some pools =>
    let ids := collectIPConfigurationIDs pools backendPoolID
    let acc := deleteLoop useStandardLB vmSetName extractScaleSetName resolve backendPoolID ids
      ⟨[], [], [], [], []⟩
    let errs := aggregateGoroutines (acc.groups.map groupUpdate)
    let result :=
      if !errs.isEmpty then some errs
      else if !acc.allErrs.isEmpty then some acc.allErrs
      else if deleteFromVMSet then vmssPhase.map (fun e => [e])
      else none
    ⟨result, acc.resolvedConfigs, acc.stagedUpdates, acc.invalidated⟩

end AzureVmss

namespace AzureVmss

-- concrete sanity checks of the deletion embedding, mirroring a Go trace
example : ensureBackendPoolDeletedFromNodePools ["a", "p", "b"] "P" = some ["a", "b"] := by decide
example : ensureBackendPoolDeletedFromNodePools ["a", "p", "p", "b"] "p" = some ["a", "b", "b"] := by decide
example : ensureBackendPoolDeletedFromNodePools ["p", "p"] "p" = some ["p"] := by decide
example : ensureBackendPoolDeletedFromNodePools ["a", "b"] "p" = none := by decide
example : ensureBackendPoolDeletedFromNodePools [] "p" = none := by decide
example : ensureHostInPoolStage false (fun s => s) ["a"] "p" = some ["a", "p"] := by decide
example : ensureHostInPoolStage true (fun s => String.mk (s.data.take 1)) ["ax"] "ay" = some ["ax", "ay"] := by
  decide
example : ensureHostInPoolStage true (fun s => String.mk (s.data.take 1)) ["bx"] "ay" = none := by
  decide
example : ensureHostInPoolStage true (fun s => s) ["P"] "p" = none := by decide

/-! ## Shared lemmas -/

theorem eqFold_refl (a : String) : eqFold a a = true := by
  simp [eqFold]

theorem removeLoop_zero (pid : String) (arr : List String) (found : Bool) :
    removeLoop pid 0 arr found = (arr, found) := rfl

theorem removeLoop_succ (pid : String) (i : Nat) (arr : List String) (found : Bool) :
    removeLoop pid (i + 1) arr found =
      if eqFold pid (arr.getD i "") then removeLoop pid i (removeStep arr i) true
      else removeLoop pid i arr found := rfl

/-- An element read by `getD` inside bounds is a member of the list. -/
theorem getD_mem_of_lt {l : List String} {j : Nat} (hj : j < l.length) (d : String) :
    l.getD j d ∈ l := by
  rw [List.getD_eq_getElem?_getD, List.getElem?_eq_getElem hj]
  simp [List.getElem_mem hj]

/-- A scan that matches nothing below `i` leaves both the array and the flag
unchanged. -/
theorem removeLoop_of_no_match (pid : String) :
    ∀ (i : Nat) (arr : List String) (found : Bool),
      (∀ j, j < i → eqFold pid (arr.getD j "") = false) →
      removeLoop pid i arr found = (arr, found) := by
  intro i
  induction i with
  | zero => intro arr found _; rfl
  | succ i ih =>
    intro arr found h
    have hni : eqFold pid (arr.getD i "") = false := h i (Nat.lt_succ_self i)
    rw [removeLoop_succ, if_neg (by rw [hni]; exact Bool.false_ne_true)]
    exact ih arr found (fun j hj => h j (Nat.lt_succ_of_lt hj))

/-- Deletion staging is a no-op when no membership entry matches the pool id. -/
theorem deleteFromNodePools_of_no_match (pools : List String) (pid : String)
    (h : ∀ x ∈ pools, eqFold pid x = false) :
    ensureBackendPoolDeletedFromNodePools pools pid = none := by
  unfold ensureBackendPoolDeletedFromNodePools
  by_cases hemp : pools.isEmpty
  · simp [hemp]
  · have hloop : removeLoop pid pools.length pools false = (pools, false) := by
      apply removeLoop_of_no_match
      intro j hj
      exact h _ (getD_mem_of_lt hj "")
    simp [hemp, hloop]

/-- Deleting a pool id appended to a list in which it does not otherwise occur
recovers exactly the original list: the only match sits at the last index, for
which the in-place compaction degenerates to dropping the final slot. -/
theorem deleteFromNodePools_append_self (pools : List String) (pid : String)
    (h : ∀ x ∈ pools, eqFold pid x = false) :
    ensureBackendPoolDeletedFromNodePools (pools ++ [pid]) pid = some pools := by
  have hlen : (pools ++ [pid]).length = pools.length + 1 := by simp
  have hgetLast : (pools ++ [pid]).getD pools.length "" = pid := by
    simp [List.getD_eq_getElem?_getD, List.getElem?_concat_length]
  have hstep : removeStep (pools ++ [pid]) pools.length = pools ++ [pid] := by
    unfold removeStep
    rw [hlen, Nat.add_sub_cancel, List.take_left, List.drop_left,
      List.drop_eq_nil_of_le (le_of_eq hlen)]
    simp
  have hloop : removeLoop pid ((pools ++ [pid]).length) (pools ++ [pid]) false =
      (pools ++ [pid], true) := by
    rw [hlen, removeLoop_succ, hgetLast, if_pos (eqFold_refl pid), hstep]
    apply removeLoop_of_no_match
    intro j hj
    rw [List.getD_append _ _ _ _ hj]
    exact h _ (getD_mem_of_lt hj "")
  have hemp : (pools ++ [pid]).isEmpty = false := by simp
  simp only [ensureBackendPoolDeletedFromNodePools, hemp, Bool.false_eq_true, if_false, hloop]
  rw [hlen, Nat.add_sub_cancel, List.take_left]
  simp

/-- When `EnsureHostInPool` stages a delta, the staged membership list is the
current list with the pool id appended. -/
theorem ensureHostInPoolStage_some (useStandardLB : Bool) (lbNameOf : String → String)
    (pools : List String) (pid : String) (l : List String)
    (h : ensureHostInPoolStage useStandardLB lbNameOf pools pid = some l) :
    l = pools ++ [pid] := by
  simp only [ensureHostInPoolStage] at h
  split_ifs at h
  all_goals simp_all

/-- The staged result of applying an optional staged membership list over the
current one (`none` = no delta staged, list unchanged). -/
def applyStaged (staged : Option (List String)) (current : List String) : List String :=
  staged.getD current

/-! ## Claim theorems -/

/-- C1: the claim states that the deletion staging removes every entry equal
case-insensitively to the pool id, including duplicates, in one pass. The
code does not: on a membership list holding two copies of the pool id, the
in-place `append(existing[:i], existing[i+1:]...)` compaction of the reverse
scan leaves one copy behind (`some ["pool-a"]` instead of the `some []` the
claim requires), in both `ensureBackendPoolDeletedFromNode` and
`EnsureBackendPoolDeletedFromVMSets` — contradicting the functions' own
stated purpose of removing the backend pool. -/
theorem c1_duplicate_pool_entries_survive_deletion :
    ensureBackendPoolDeletedFromNodePools ["pool-a", "pool-a"] "pool-a" = some ["pool-a"] ∧
    ensureBackendPoolDeletedFromVMSetsPools ["pool-a", "pool-a"] "pool-a" = some ["pool-a"] ∧
    (["pool-a"] : List String) ≠ [] := by
  refine ⟨by decide, by decide, by decide⟩

/-- C2: round-trip — on a membership list that does not already contain the
pool id (case-insensitively), staging an ensure (`EnsureHostInPool`, which
appends the pool id when it stages at all) followed by staging a delete of
the same pool id (`ensureBackendPoolDeletedFromNode`) yields the original
membership list, with no concurrent mutation in between. -/
theorem c2_ensure_then_delete_roundtrip (useStandardLB : Bool) (lbNameOf : String → String)
    (pools : List String) (backendPoolID : String)
    (h : ∀ p ∈ pools, eqFold backendPoolID p = false) :
    applyStaged
      (ensureBackendPoolDeletedFromNodePools
        (applyStaged (ensureHostInPoolStage useStandardLB lbNameOf pools backendPoolID) pools)
        backendPoolID)
      (applyStaged (ensureHostInPoolStage useStandardLB lbNameOf pools backendPoolID) pools)
      = pools := by
  cases hres : ensureHostInPoolStage useStandardLB lbNameOf pools backendPoolID with
  | none =>
    simp only [applyStaged, Option.getD_none]
    rw [deleteFromNodePools_of_no_match pools backendPoolID h]
    rfl
  | some l =>
    obtain rfl := ensureHostInPoolStage_some _ _ _ _ _ hres
    simp only [applyStaged, Option.getD_some]
    rw [deleteFromNodePools_append_self pools backendPoolID h]
    rfl

/-- Witness for C2 at a concrete input. -/
theorem c2_ensure_then_delete_roundtrip_witness :
    (∀ p ∈ ["keep-1"], eqFold "new-pool" p = false) ∧
    applyStaged
      (ensureBackendPoolDeletedFromNodePools
        (applyStaged (ensureHostInPoolStage false (fun s => s) ["keep-1"] "new-pool") ["keep-1"])
        "new-pool")
      (applyStaged (ensureHostInPoolStage false (fun s => s) ["keep-1"] "new-pool") ["keep-1"])
      = ["keep-1"] :=
  ⟨by decide, c2_ensure_then_delete_roundtrip false (fun s => s) ["keep-1"] "new-pool" (by decide)⟩

/-- C3: idempotence of ensure staging — when the pool id already appears
case-insensitively in the membership list, `EnsureHostInPool` returns the
no-op (`nil` staged delta, `nil` error, nothing mutated); consequently a
second staging call that observes the first call's appended membership
stages nothing. -/
theorem c3_ensure_staging_idempotent (useStandardLB : Bool) (lbNameOf : String → String)
    (pools : List String) (backendPoolID : String) :
    ((pools.any fun p => eqFold backendPoolID p) = true →
      ensureHostInPoolStage useStandardLB lbNameOf pools backendPoolID = none) ∧
    (∀ l, ensureHostInPoolStage useStandardLB lbNameOf pools backendPoolID = some l →
      ensureHostInPoolStage useStandardLB lbNameOf l backendPoolID = none) := by
  constructor
  · intro hfound
    simp [ensureHostInPoolStage, hfound]
  · intro l hl
    obtain rfl := ensureHostInPoolStage_some _ _ _ _ _ hl
    have hfound : ((pools ++ [backendPoolID]).any fun p => eqFold backendPoolID p) = true := by
      simp [List.any_append, eqFold_refl]
    simp [ensureHostInPoolStage, hfound]

/-- Witness for C3 at a concrete input. -/
theorem c3_ensure_staging_idempotent_witness :
    (["other", "the-pool"].any fun p => eqFold "The-Pool" p) = true ∧
    ensureHostInPoolStage false (fun s => s) ["other", "the-pool"] "The-Pool" = none ∧
    ensureHostInPoolStage false (fun s => s) ["fresh"] "The-Pool" = some ["fresh", "The-Pool"] ∧
    ensureHostInPoolStage false (fun s => s) ["fresh", "The-Pool"] "The-Pool" = none :=
  ⟨by decide,
    (c3_ensure_staging_idempotent false (fun s => s) ["other", "the-pool"] "The-Pool").1 (by decide),
    by decide,
    (c3_ensure_staging_idempotent false (fun s => s) ["fresh"] "The-Pool").2 _ (by decide)⟩

/-- C7: shared (standard) load-balancer conflict policy — with a non-empty
existing membership list, if any existing pool id's derived load-balancer
name differs (case-insensitively) from the target pool id's load-balancer
name, `EnsureHostInPool` skips the node: no staged delta, no error, the
membership list untouched. -/
theorem c7_conflicting_lb_skips_node (lbNameOf : String → String) (pools : List String)
    (backendPoolID : String) (hne : pools ≠ [])
    (hconf : ∃ p ∈ pools, eqFold (lbNameOf p) (lbNameOf backendPoolID) = false) :
    ensureHostInPoolStage true lbNameOf pools backendPoolID = none := by
  by_cases hfound : (pools.any fun p => eqFold backendPoolID p) = true
  · simp [ensureHostInPoolStage, hfound]
  · have hlen : 0 < pools.length := List.length_pos.mpr hne
    have hsame : (isBackendPoolOnSameLB lbNameOf backendPoolID pools).1 = false := by
      obtain ⟨p, hp, hpf⟩ := hconf
      have hex : ∃ x ∈ pools, (!(eqFold (lbNameOf x) (lbNameOf backendPoolID))) = true :=
        ⟨p, hp, by simp [hpf]⟩
      have hsome := List.find?_isSome.mpr hex
      cases hfind : pools.find? (fun x => !(eqFold (lbNameOf x) (lbNameOf backendPoolID))) with
      | none => rw [hfind] at hsome; simp at hsome
      | some q => simp [isBackendPoolOnSameLB, hfind]
    simp [ensureHostInPoolStage, hfound, hlen, hsame]

/-- Witness for C7 at a concrete input (load-balancer name derived as the
first three characters of the pool id). -/
theorem c7_conflicting_lb_skips_node_witness :
    (["lba-pool"] : List String) ≠ [] ∧
    (∃ p ∈ ["lba-pool"],
      eqFold (String.mk (p.data.take 3)) (String.mk ("lbb-pool".data.take 3)) = false) ∧
    ensureHostInPoolStage true (fun s => String.mk (s.data.take 3)) ["lba-pool"] "lbb-pool" =
      none :=
  ⟨by decide, ⟨"lba-pool", by decide, by decide⟩,
    c7_conflicting_lb_skips_node (fun s => String.mk (s.data.take 3)) ["lba-pool"] "lbb-pool"
      (by decide) ⟨"lba-pool", by decide, by decide⟩⟩

/-- A non-empty scale-set name returned by the inventory scan comes from a
scanned entry whose prefix (computer-name prefix when set, else the
scale-set's own name) case-insensitively equals the node name with its
instance suffix stripped. -/
theorem findVMSSForNode_spec (nodeName : String) :
    ∀ entries : List VMSSEntry,
      (findVMSSForNode nodeName entries).vmssName ≠ "" →
      (findVMSSForNode nodeName entries).nodeName = nodeName ∧
      ∃ e ∈ entries, e.name = some (findVMSSForNode nodeName entries).vmssName ∧
        e.resourceGroup = (findVMSSForNode nodeName entries).resourceGroup ∧
        eqFold (e.computerNamePrefix.getD (findVMSSForNode nodeName entries).vmssName)
          (stripInstanceSuffix nodeName) = true := by
  intro entries
  induction entries with
  | nil => intro h; simp [findVMSSForNode] at h
  | cons e rest ih =>
    intro h
    cases hname : e.name with
    | none =>
      have hrec : findVMSSForNode nodeName (e :: rest) = findVMSSForNode nodeName rest := by
        simp [findVMSSForNode, hname]
      rw [hrec] at h ⊢
      obtain ⟨hnn, e', hmem, hP⟩ := ih h
      exact ⟨hnn, e', List.mem_cons_of_mem _ hmem, hP⟩
    | some nm =>
      by_cases hpf : eqFold (e.computerNamePrefix.getD nm) (stripInstanceSuffix nodeName) = true
      · have heq : findVMSSForNode nodeName (e :: rest) = ⟨e.resourceGroup, nm, nodeName⟩ := by
          simp [findVMSSForNode, hname, hpf]
        rw [heq] at h ⊢
        exact ⟨rfl, e, List.mem_cons_self e rest, hname, rfl, hpf⟩
      · have hrec : findVMSSForNode nodeName (e :: rest) = findVMSSForNode nodeName rest := by
          simp [findVMSSForNode, hname, hpf]
        rw [hrec] at h ⊢
        obtain ⟨hnn, e', hmem, hP⟩ := ih h
        exact ⟨hnn, e', List.mem_cons_of_mem _ hmem, hP⟩

/-- C4: for every node name of length at least 6 whose trailing 6 characters
decode as base-36, fleet resolution (`getNodeIdentityByNodeName`) either
returns an identity whose scale set's compute-name prefix (or its name when
the prefix is unset) case-insensitively equals the node name with the
6-character suffix stripped, or fails with `InstanceNotFound` after exactly
one forced cache refresh (two cache reads in total). -/
theorem c4_fleet_resolution (nodeName : String) (snap1 snap2 : List VMSSEntry)
    (h6 : 6 ≤ nodeName.length)
    (hparse : (parseUintBase36 (nodeName.data.drop (nodeName.length - 6))).isSome = true) :
    (∃ id, (getNodeIdentityByNodeName nodeName snap1 snap2).1 = .ok id ∧
      id.nodeName = nodeName ∧
      ∃ e, (e ∈ snap1 ∨ e ∈ snap2) ∧ e.name = some id.vmssName ∧
        e.resourceGroup = id.resourceGroup ∧
        eqFold (e.computerNamePrefix.getD id.vmssName) (stripInstanceSuffix nodeName) = true) ∨
    ((getNodeIdentityByNodeName nodeName snap1 snap2).1 = .error .instanceNotFound ∧
      (getNodeIdentityByNodeName nodeName snap1 snap2).2 = 2) := by
  obtain ⟨v, hv⟩ := Option.isSome_iff_exists.mp hparse
  have hid : getScaleSetVMInstanceID nodeName = .ok (toString v) := by
    simp [getScaleSetVMInstanceID, Nat.not_lt.mpr h6, hv]
  by_cases h1 : (findVMSSForNode nodeName snap1).vmssName ≠ ""
  · left
    obtain ⟨hnn, e, hmem, hP⟩ := findVMSSForNode_spec nodeName snap1 h1
    exact ⟨findVMSSForNode nodeName snap1,
      by simp [getNodeIdentityByNodeName, hid, h1], hnn, e, Or.inl hmem, hP⟩
  · by_cases h2 : (findVMSSForNode nodeName snap2).vmssName = ""
    · right
      constructor <;> simp [getNodeIdentityByNodeName, hid, h1, h2]
    · left
      obtain ⟨hnn, e, hmem, hP⟩ := findVMSSForNode_spec nodeName snap2 h2
      exact ⟨findVMSSForNode nodeName snap2,
        by simp [getNodeIdentityByNodeName, hid, h1, h2], hnn, e, Or.inr hmem, hP⟩

/-- Witness for C4 at a concrete input: node `"aks-pool1-000000"` resolves
against a cached scale set with compute-name prefix `"aks-pool1-"`. -/
theorem c4_fleet_resolution_witness :
    6 ≤ String.length "aks-pool1-000000" ∧
    (parseUintBase36
      (("aks-pool1-000000" : String).data.drop (String.length "aks-pool1-000000" - 6))).isSome
        = true ∧
    ((∃ id,
      (getNodeIdentityByNodeName "aks-pool1-000000"
        [⟨some "aks-pool1-vmss", some "aks-pool1-", "rg"⟩] []).1 = .ok id ∧
      id.nodeName = "aks-pool1-000000" ∧
      ∃ e, (e ∈ [(⟨some "aks-pool1-vmss", some "aks-pool1-", "rg"⟩ : VMSSEntry)] ∨
          e ∈ ([] : List VMSSEntry)) ∧
        e.name = some id.vmssName ∧ e.resourceGroup = id.resourceGroup ∧
        eqFold (e.computerNamePrefix.getD id.vmssName)
          (stripInstanceSuffix "aks-pool1-000000") = true) ∨
    ((getNodeIdentityByNodeName "aks-pool1-000000"
        [⟨some "aks-pool1-vmss", some "aks-pool1-", "rg"⟩] []).1 = .error .instanceNotFound ∧
      (getNodeIdentityByNodeName "aks-pool1-000000"
        [⟨some "aks-pool1-vmss", some "aks-pool1-", "rg"⟩] []).2 = 2)) :=
  ⟨by decide, by decide,
    c4_fleet_resolution "aks-pool1-000000" [⟨some "aks-pool1-vmss", some "aks-pool1-", "rg"⟩] []
      (by decide) (by decide)⟩

/-- C5: a node name shorter than 6 characters, or whose trailing 6 characters
do not parse as base-36, fails with `ErrorNotVmssInstance` — in
`getScaleSetVMInstanceID` itself, and in `getNodeIdentityByNodeName` with
zero cache reads (the check precedes any cache access). -/
theorem c5_not_vmss_instance_before_cache (nodeName : String) (snap1 snap2 : List VMSSEntry)
    (h : nodeName.length < 6 ∨
      parseUintBase36 (nodeName.data.drop (nodeName.length - 6)) = none) :
    getScaleSetVMInstanceID nodeName = .error .errorNotVmssInstance ∧
    getNodeIdentityByNodeName nodeName snap1 snap2 = (.error .errorNotVmssInstance, 0) := by
  have hid : getScaleSetVMInstanceID nodeName = .error .errorNotVmssInstance := by
    rcases h with h | h
    · simp [getScaleSetVMInstanceID, h]
    · by_cases h6 : nodeName.length < 6
      · simp [getScaleSetVMInstanceID, h6]
      · simp [getScaleSetVMInstanceID, h6, h]
  exact ⟨hid, by simp [getNodeIdentityByNodeName, hid]⟩

/-- Witness for C5 at concrete inputs: a 3-character name, and an 8-character
name whose suffix holds a non-base-36 character. -/
theorem c5_not_vmss_instance_before_cache_witness :
    (String.length "abc" < 6 ∨
      parseUintBase36 (("abc" : String).data.drop (String.length "abc" - 6)) = none) ∧
    getScaleSetVMInstanceID "abc" = .error .errorNotVmssInstance ∧
    getNodeIdentityByNodeName "abc" [] [] = (.error .errorNotVmssInstance, 0) ∧
    getNodeIdentityByNodeName "ab-cd_001" [] [] = (.error .errorNotVmssInstance, 0) :=
  ⟨Or.inl (by decide),
    (c5_not_vmss_instance_before_cache "abc" [] [] (Or.inl (by decide))).1,
    (c5_not_vmss_instance_before_cache "abc" [] [] (Or.inl (by decide))).2,
    (c5_not_vmss_instance_before_cache "ab-cd_001" [] [] (Or.inr (by decide))).2⟩

/-- `find?` returns the element satisfying the predicate when that element is
unique in the list. -/
theorem find?_eq_of_unique {α : Type} (p : α → Bool) :
    ∀ (l : List α) (c : α), c ∈ l → p c = true → (∀ x ∈ l, p x = true → x = c) →
      l.find? p = some c := by
  intro l
  induction l with
  | nil => intro c hc _ _; simp at hc
  | cons a rest ih =>
    intro c hc hpc huniq
    by_cases hpa : p a = true
    · have ha : a = c := huniq a (List.mem_cons_self a rest) hpa
      subst ha
      simp [List.find?_cons_of_pos _ hpa]
    · rw [List.find?_cons_of_neg _ (by simpa using hpa)]
      have hc' : c ∈ rest := by
        cases List.mem_cons.mp hc with
        | inl h => exact absurd (h ▸ hpc) hpa
        | inr h => exact h
      exact ih c hc' hpc (fun x hx => huniq x (List.mem_cons_of_mem _ hx))

/-- Error characterization of `getPrimaryNetworkInterfaceConfiguration`: it
errs exactly on lists that do not have exactly one element and hold no
configuration flagged primary. -/
theorem getPrimaryNIC_error_iff (cs : List VMSSNetworkConfig) (nodeName : String) :
    (∃ msg, getPrimaryNetworkInterfaceConfiguration cs nodeName = .error (.configError msg)) ↔
      (cs.length ≠ 1 ∧ ∀ c ∈ cs, c.primary ≠ some true) := by
  cases cs with
  | nil => simp [getPrimaryNetworkInterfaceConfiguration]
  | cons a rest =>
    cases rest with
    | nil => simp [getPrimaryNetworkInterfaceConfiguration]
    | cons b rest' =>
      cases hfind : (a :: b :: rest').find? (fun c => c.primary == some true) with
      | some c =>
        have hp := List.find?_some hfind
        have hmem := List.mem_of_find?_eq_some hfind
        simp only [getPrimaryNetworkInterfaceConfiguration, hfind]
        constructor
        · intro ⟨msg, hmsg⟩; exact absurd hmsg (by simp)
        · intro ⟨_, hall⟩
          exact absurd (by simpa using hp) (hall c hmem)
      | none =>
        have hall := List.find?_eq_none.mp hfind
        simp only [getPrimaryNetworkInterfaceConfiguration, hfind]
        constructor
        · intro _
          refine ⟨by simp, fun c hc => ?_⟩
          simpa using hall c hc
        · intro _; exact ⟨_, rfl⟩

/-- `getPrimaryNetworkInterfaceConfiguration` returns the unique
primary-flagged configuration of a list without exactly one element. -/
theorem getPrimaryNIC_of_unique_primary (cs : List VMSSNetworkConfig) (nodeName : String)
    (c : VMSSNetworkConfig) (hlen : cs.length ≠ 1) (hmem : c ∈ cs) (hc : c.primary = some true)
    (huniq : ∀ c' ∈ cs, c'.primary = some true → c' = c) :
    getPrimaryNetworkInterfaceConfiguration cs nodeName = .ok c := by
  have hfind : cs.find? (fun x => x.primary == some true) = some c :=
    find?_eq_of_unique _ cs c hmem (by simp [hc]) (fun x hx hpx => huniq x hx (by simpa using hpx))
  cases cs with
  | nil => simp at hmem
  | cons a rest =>
    cases rest with
    | nil => simp at hlen
    | cons b rest' => simp [getPrimaryNetworkInterfaceConfiguration, hfind]

/-- Error characterization of `getPrimaryIPConfigFromVMSSNetworkConfig`,
mirroring `getPrimaryNIC_error_iff` on the IP-configuration list. -/
theorem getPrimaryIPConfig_error_iff (cfg : VMSSNetworkConfig) :
    (∃ msg, getPrimaryIPConfigFromVMSSNetworkConfig cfg = .error (.configError msg)) ↔
      (cfg.ipConfigurations.length ≠ 1 ∧ ∀ c ∈ cfg.ipConfigurations, c.primary ≠ some true) := by
  obtain ⟨prim, ipcs⟩ := cfg
  cases ipcs with
  | nil => simp [getPrimaryIPConfigFromVMSSNetworkConfig]
  | cons a rest =>
    cases rest with
    | nil => simp [getPrimaryIPConfigFromVMSSNetworkConfig]
    | cons b rest' =>
      cases hfind : (a :: b :: rest').find? (fun c => c.primary == some true) with
      | some c =>
        have hp := List.find?_some hfind
        have hmem := List.mem_of_find?_eq_some hfind
        simp only [getPrimaryIPConfigFromVMSSNetworkConfig, hfind]
        constructor
        · intro ⟨msg, hmsg⟩; exact absurd hmsg (by simp)
        · intro ⟨_, hall⟩
          exact absurd (by simpa using hp) (hall c hmem)
      | none =>
        have hall := List.find?_eq_none.mp hfind
        simp only [getPrimaryIPConfigFromVMSSNetworkConfig, hfind]
        constructor
        · intro _
          refine ⟨by simp, fun c hc => ?_⟩
          simpa using hall c hc
        · intro _; exact ⟨_, rfl⟩

/-- `getPrimaryIPConfigFromVMSSNetworkConfig` returns the unique
primary-flagged IP configuration of a list without exactly one element. -/
theorem getPrimaryIPConfig_of_unique_primary (cfg : VMSSNetworkConfig) (c : VMSSIPConfig)
    (hlen : cfg.ipConfigurations.length ≠ 1) (hmem : c ∈ cfg.ipConfigurations)
    (hc : c.primary = some true)
    (huniq : ∀ c' ∈ cfg.ipConfigurations, c'.primary = some true → c' = c) :
    getPrimaryIPConfigFromVMSSNetworkConfig cfg = .ok c := by
  have hfind : cfg.ipConfigurations.find? (fun x => x.primary == some true) = some c :=
    find?_eq_of_unique _ _ c hmem (by simp [hc]) (fun x hx hpx => huniq x hx (by simpa using hpx))
  obtain ⟨prim, ipcs⟩ := cfg
  cases ipcs with
  | nil => simp at hmem
  | cons a rest =>
    cases rest with
    | nil => simp at hlen
    | cons b rest' =>
      simp only at hfind
      simp only [getPrimaryIPConfigFromVMSSNetworkConfig]
      rw [hfind]

/-- C6 counterexample: the claim's "returns an error if and only if the list
has more than one element and none is flagged primary" fails on the empty
list — both selection operations err there although the empty list does not
have more than one element. -/
theorem c6_empty_list_errs_counterexample :
    (∃ msg, getPrimaryNetworkInterfaceConfiguration ([] : List VMSSNetworkConfig) "vm-0"
      = .error (.configError msg)) ∧
    (∃ msg, getPrimaryIPConfigFromVMSSNetworkConfig ⟨none, []⟩ = .error (.configError msg)) ∧
    ¬(([] : List VMSSNetworkConfig).length > 1) :=
  ⟨⟨_, rfl⟩, ⟨_, rfl⟩, by decide⟩

/-- C6 (amended): primary selection returns the sole element of a
one-element list, returns the unique primary-flagged element otherwise, and
errs exactly when the list does not have exactly one element and no element
is flagged primary (so also on the empty list) — for the interface and the
IP-configuration selection alike. -/
theorem c6_primary_selection_characterization (cs : List VMSSNetworkConfig)
    (cfg : VMSSNetworkConfig) (nodeName : String) :
    ((∃ msg, getPrimaryNetworkInterfaceConfiguration cs nodeName = .error (.configError msg)) ↔
      (cs.length ≠ 1 ∧ ∀ c ∈ cs, c.primary ≠ some true)) ∧
    (∀ c, cs = [c] → getPrimaryNetworkInterfaceConfiguration cs nodeName = .ok c) ∧
    (∀ c, cs.length ≠ 1 → c ∈ cs → c.primary = some true →
      (∀ c' ∈ cs, c'.primary = some true → c' = c) →
      getPrimaryNetworkInterfaceConfiguration cs nodeName = .ok c) ∧
    ((∃ msg, getPrimaryIPConfigFromVMSSNetworkConfig cfg = .error (.configError msg)) ↔
      (cfg.ipConfigurations.length ≠ 1 ∧ ∀ c ∈ cfg.ipConfigurations, c.primary ≠ some true)) ∧
    (∀ c, cfg.ipConfigurations = [c] → getPrimaryIPConfigFromVMSSNetworkConfig cfg = .ok c) ∧
    (∀ c, cfg.ipConfigurations.length ≠ 1 → c ∈ cfg.ipConfigurations → c.primary = some true →
      (∀ c' ∈ cfg.ipConfigurations, c'.primary = some true → c' = c) →
      getPrimaryIPConfigFromVMSSNetworkConfig cfg = .ok c) := by
  refine ⟨getPrimaryNIC_error_iff cs nodeName, ?_, ?_, getPrimaryIPConfig_error_iff cfg, ?_, ?_⟩
  · intro c hc
    subst hc
    rfl
  · intro c hlen hmem hc huniq
    exact getPrimaryNIC_of_unique_primary cs nodeName c hlen hmem hc huniq
  · intro c hc
    obtain ⟨prim, ipcs⟩ := cfg
    simp only at hc
    subst hc
    rfl
  · intro c hlen hmem hc huniq
    exact getPrimaryIPConfig_of_unique_primary cfg c hlen hmem hc huniq

/-- Witness for C6 at concrete inputs: a two-element interface list whose
second element is flagged primary, and a two-element IP-configuration list
whose first element is flagged primary. -/
theorem c6_primary_selection_characterization_witness :
    getPrimaryNetworkInterfaceConfiguration
      [⟨some false, []⟩, ⟨some true, []⟩] "vm-0" = .ok ⟨some true, []⟩ ∧
    getPrimaryIPConfigFromVMSSNetworkConfig
      ⟨none, [⟨some true, none⟩, ⟨some false, none⟩]⟩ = .ok ⟨some true, none⟩ :=
  ⟨(c6_primary_selection_characterization [⟨some false, []⟩, ⟨some true, []⟩]
      ⟨none, [⟨some true, none⟩, ⟨some false, none⟩]⟩ "vm-0").2.2.1
      ⟨some true, []⟩ (by decide) (by decide) (by decide) (by decide),
    (c6_primary_selection_characterization [⟨some false, []⟩, ⟨some true, []⟩]
      ⟨none, [⟨some true, none⟩, ⟨some false, none⟩]⟩ "vm-0").2.2.2.2.2
      ⟨some true, none⟩ (by decide) (by decide) (by decide) (by decide)⟩

/-- C8 counterexample: the claim says the returned error is the aggregate of
all collected failures. It is not — `EnsureHostsInPool` returns only the
concurrent tasks' aggregate when any task failed, dropping the per-node
staging failures: with one node whose staging fails (`"e1"`) and one staged
node whose group update fails (`"e2"`), `"e1"` is collected but absent from
the returned aggregate `["e2"]`. -/
theorem c8_staging_failures_dropped_counterexample :
    ensureHostsInPool [.stageErr "e1", .staged "rg" "vmss-a" "0"] (fun _ => some "e2") none
      = some ["e2"] ∧
    "e1" ∈ ensureHostsInPoolCollectedFailures [.stageErr "e1", .staged "rg" "vmss-a" "0"]
      (fun _ => some "e2") ∧
    "e1" ∉ (["e2"] : List String) :=
  ⟨by decide, by decide, by decide⟩

/-- C8 (amended): when the staging loop completes (no exclusion-check failure
aborts the call early), every staged group's batched update call is issued —
all of them, regardless of any task's outcome; the returned error is the
aggregate of the concurrent tasks' failures when any task failed, otherwise
the aggregate of the collected per-node staging failures; and the call
returns nil exactly when no failure of either kind was collected and the
trailing scale-set template reconciliation succeeded. -/
theorem c8_bulk_ensure_failure_aggregation (nodes : List NodePlan)
    (groupUpdate : String × String → Option String) (templatePhase : Option String)
    (acc : HostsInPoolAcc) (hstage : stageLoop nodes ⟨[], [], []⟩ = .ok acc) :
    ensureHostsInPoolUpdateCalls nodes = acc.groups ∧
    (aggregateGoroutines (acc.delegations ++ acc.groups.map groupUpdate) ≠ [] →
      ensureHostsInPool nodes groupUpdate templatePhase =
        some (aggregateGoroutines (acc.delegations ++ acc.groups.map groupUpdate))) ∧
    (aggregateGoroutines (acc.delegations ++ acc.groups.map groupUpdate) = [] →
      acc.errors ≠ [] →
      ensureHostsInPool nodes groupUpdate templatePhase = some acc.errors) ∧
    (ensureHostsInPool nodes groupUpdate templatePhase = none ↔
      aggregateGoroutines (acc.delegations ++ acc.groups.map groupUpdate) = [] ∧
      acc.errors = [] ∧ templatePhase = none) := by
  have hbody : ensureHostsInPool nodes groupUpdate templatePhase =
      (if !(aggregateGoroutines (acc.delegations ++ acc.groups.map groupUpdate)).isEmpty then
        some (aggregateGoroutines (acc.delegations ++ acc.groups.map groupUpdate))
      else if !acc.errors.isEmpty then some acc.errors
      else templatePhase.map (fun e => [e])) := by
    simp [ensureHostsInPool, hstage]
  refine ⟨by simp [ensureHostsInPoolUpdateCalls, hstage], ?_, ?_, ?_⟩
  · intro hT
    rw [hbody]
    simp [hT]
  · intro hT hE
    rw [hbody]
    simp [hT, hE]
  · rw [hbody]
    by_cases hT : aggregateGoroutines (acc.delegations ++ acc.groups.map groupUpdate) = []
    · by_cases hE : acc.errors = []
      · cases templatePhase <;> simp [hT, hE]
      · simp [hT, hE]
    · simp [hT]

/-- Witness for C8 at the claim's own scenario: three staged nodes across two
groups, the first group's batched update fails — both updates are issued, the
second group's still applies, and the aggregate holds exactly that one
failure. -/
theorem c8_bulk_ensure_failure_aggregation_witness :
    stageLoop [.staged "rg" "g1" "0", .staged "rg" "g1" "1", .staged "rg" "g2" "2"] ⟨[], [], []⟩
      = .ok ⟨[], [("rg", "g1"), ("rg", "g2")], []⟩ ∧
    ensureHostsInPoolUpdateCalls
      [.staged "rg" "g1" "0", .staged "rg" "g1" "1", .staged "rg" "g2" "2"]
      = [("rg", "g1"), ("rg", "g2")] ∧
    ensureHostsInPool [.staged "rg" "g1" "0", .staged "rg" "g1" "1", .staged "rg" "g2" "2"]
      (fun g => if g.2 == "g1" then some "boom" else none) none = some ["boom"] :=
  ⟨rfl,
    (c8_bulk_ensure_failure_aggregation
      [.staged "rg" "g1" "0", .staged "rg" "g1" "1", .staged "rg" "g2" "2"]
      (fun g => if g.2 == "g1" then some "boom" else none) none
      ⟨[], [("rg", "g1"), ("rg", "g2")], []⟩ rfl).1,
    ((c8_bulk_ensure_failure_aggregation
      [.staged "rg" "g1" "0", .staged "rg" "g1" "1", .staged "rg" "g2" "2"]
      (fun g => if g.2 == "g1" then some "boom" else none) none
      ⟨[], [("rg", "g1"), ("rg", "g2")], []⟩ rfl).2.1 (by decide)).trans (by decide)⟩

/-- C9: a resolved scale-set VM whose instance view or status list is `nil`
(as during deletion) reports the power state `"stopped"` with no error, and
the power-state scan never errs merely because no power-state code is
present. -/
theorem c9_power_state_nil_view_is_stopped (vm : VMSSVMRecord) :
    ((vm.instanceView = none ∨ ∃ iv, vm.instanceView = some iv ∧ iv.statuses = none) →
      getPowerStatusOfVMSSVM vm = .ok vmPowerStateStopped) ∧
    ∃ s, getPowerStatusOfVMSSVM vm = .ok s := by
  constructor
  · rintro (h | ⟨iv, hiv, hst⟩)
    · simp [getPowerStatusOfVMSSVM, h]
    · simp [getPowerStatusOfVMSSVM, hiv, hst]
  · rcases vm with ⟨iv⟩
    cases iv with
    | none => exact ⟨vmPowerStateStopped, rfl⟩
    | some v =>
      cases hst : v.statuses with
      | none => exact ⟨vmPowerStateStopped, by simp [getPowerStatusOfVMSSVM, hst]⟩
      | some sts =>
        cases hf :
            sts.find? (fun st => vmPowerStatePrefix.data.isPrefixOf (st.code.getD "").data) with
        | none => exact ⟨vmPowerStateStopped, by simp [getPowerStatusOfVMSSVM, hst, hf]⟩
        | some st =>
          exact ⟨String.mk ((st.code.getD "").data.drop vmPowerStatePrefix.data.length),
            by simp [getPowerStatusOfVMSSVM, hst, hf]⟩

/-- Witness for C9: a `nil` instance view and a `nil` status list both report
`"stopped"`. -/
theorem c9_power_state_nil_view_is_stopped_witness :
    getPowerStatusOfVMSSVM ⟨none⟩ = .ok vmPowerStateStopped ∧
    getPowerStatusOfVMSSVM ⟨some ⟨none⟩⟩ = .ok vmPowerStateStopped :=
  ⟨(c9_power_state_nil_view_is_stopped ⟨none⟩).1 (Or.inl rfl),
    (c9_power_state_nil_view_is_stopped ⟨some ⟨none⟩⟩).1 (Or.inr ⟨⟨none⟩, rfl, rfl⟩)⟩

/-- C10: `EnsureBackendPoolDeleted` called with a `nil` backend-address-pool
list returns nil immediately: no configuration is resolved, no deletion is
staged, and no cache entry is invalidated, whatever the rest of the
environment looks like. -/
theorem c10_nil_pool_list_is_noop (useStandardLB deleteFromVMSet : Bool) (vmSetName : String)
    (extractScaleSetName : String → Option String) (resolve : String → IPConfigOutcome)
    (groupUpdate : String × String → Option String) (vmssPhase : Option String)
    (backendPoolID : String) :
    ensureBackendPoolDeleted useStandardLB deleteFromVMSet vmSetName extractScaleSetName resolve
      groupUpdate vmssPhase none backendPoolID = ⟨none, [], [], []⟩ := rfl

end AzureVmss
